import Mathlib

/-!
The cep-clima-open-telemetry pipeline: postal code to temperature.

Verification development for the two HTTP stages of the repository:

* `service-a/main.go`: the edge stage (`handleZipCode`, `forwardToServiceB`,
  `sendErrorResponse`);
* `service-b/main.go`: the resolution stage (`handleWeather`,
  `fetchCityByZipCode`, `fetchTemperature`, `sendErrorResponse`).

Go strings and byte slices are modelled as Lean strings (sequences of Unicode
code points), HTTP status codes as natural numbers, Go `error` results as
`Except String`, `float64` as exact binary64 values. The response writer
follows the `net/http` server: a status code outside 100..999 panics, 1xx
codes are interim responses, 204 and 304 carry no body, and a 304 loses its
Content-Type. Tracing spans and log lines do not influence any response and
are left out.
-/

namespace CepClima

/-! ## Regular expressions (package `regexp`, RE2 semantics) -/

/-- Abstract syntax of the fragment of Go regular expressions used by the
pattern of the two handlers: `^` and `$` without the multi-line flag are the
begin-of-text and end-of-text assertions, a character class is a range of
code points, `x{n}` repeats `x` exactly `n` times. -/
inductive Regexp where
  | beginText : Regexp
  | endText : Regexp
  | charClass (lo hi : Char) : Regexp
  | concat (r s : Regexp) : Regexp
  | rep (r : Regexp) (n : Nat) : Regexp

/-- Thread a one-step matcher `n` times: the positions reachable from `pos`
after `n` consecutive matches. -/
def repEnds (step : Nat → List Nat) : Nat → Nat → List Nat
  | 0, pos => [pos]
  | n + 1, pos => (step pos).flatMap (repEnds step n)

/-- All positions at which a match of the expression that starts at `pos`
can end in `text`. -/
def Regexp.ends : Regexp → List Char → Nat → List Nat
  | .beginText, _, pos => if pos = 0 then [pos] else []
  | .endText, text, pos => if pos = text.length then [pos] else []
  | .charClass lo hi, text, pos =>
    match text.get? pos with
    | some c => if lo ≤ c ∧ c ≤ hi then [pos + 1] else []
    | none => []
  | .concat r s, text, pos => (r.ends text pos).flatMap (fun p => s.ends text p)
  | .rep r n, text, pos => repEnds (fun p => r.ends text p) n pos

/-- Unanchored search, as `regexp.MatchString` does it: the text matches
when a match starts at some position of the text. -/
def Regexp.matchString (re : Regexp) (s : String) : Bool :=
  (List.range (s.data.length + 1)).any (fun start => !(re.ends s.data start).isEmpty)

/-- The class `\d` of RE2: the ASCII digits only. -/
def perlDigit : Regexp := .charClass '0' '9'

/-- The pattern `^\d{8}$` of `handleZipCode` and `handleWeather`. -/
def zipCodePattern : Regexp :=
  .concat .beginText (.concat (.rep perlDigit 8) .endText)

/-- The check `regexp.MatchString("^\\d{8}$", request.ZipCode)`. -/
def validZipCode (zipCode : String) : Bool :=
  zipCodePattern.matchString zipCode

/-- RE2 digit test on a code point. -/
def isAsciiDigit (c : Char) : Prop := '0' ≤ c ∧ c ≤ '9'

instance (c : Char) : Decidable (isAsciiDigit c) := by unfold isAsciiDigit; infer_instance

/-! ## IEEE-754 binary64 (`float64`) -/

/-- A `float64` value. `finite neg m e` stands for `(-1)^neg * m * 2^e`; the
values produced by the operations below are in canonical form: `m < 2^53`,
`-1074 ≤ e ≤ 971`, and `2^52 ≤ m` unless `e = -1074`. -/
inductive F64 where
  | finite (neg : Bool) (m : Nat) (e : Int) : F64
  | inf (neg : Bool) : F64
  | nan : F64
  deriving DecidableEq, Repr

namespace F64

/-- Number of binary digits of `n`, computed with fuel `fuel`. -/
def bitLenAux : Nat → Nat → Nat
  | 0, _ => 0
  | fuel + 1, n => if n = 0 then 0 else bitLenAux fuel (n / 2) + 1

/-- Number of binary digits of `n` (`0` for `0`). -/
def bitLen (n : Nat) : Nat := bitLenAux n n

/-- The quotient `m / 2^sh` rounded to the nearest integer, ties to even. -/
def roundedQuotient (m sh : Nat) : Nat :=
  let q : Nat := m / 2 ^ sh
  let r : Nat := m % 2 ^ sh
  let half : Nat := 2 ^ (sh - 1)
  if r > half ∨ (r = half ∧ q % 2 = 1) then q + 1 else q

/-- The value `(-1)^neg * q * 2^e` with `q ≤ 2^53` as a `float64`: a
mantissa of `2^53` is renormalised, an exponent above 971 is an overflow. -/
def pack (neg : Bool) (q : Nat) (e : Int) : F64 :=
  let m1 : Nat := if q = 2 ^ 53 then 2 ^ 52 else q
  let e1 : Int := if q = 2 ^ 53 then e + 1 else e
  if e1 > 971 then inf neg else finite neg m1 e1

/-- Round the exact value `(-1)^neg * m * 2^e` to the nearest `float64`, ties
to even; values beyond the largest finite `float64` overflow to infinity. -/
def round (neg : Bool) (m : Nat) (e : Int) : F64 :=
  if m = 0 then finite neg 0 (-1074)
  else
    let len : Int := (bitLen m : Nat)
    let e0 : Int := max (e + len - 53) (-1074)
    if e0 ≤ e then
      if e0 > 971 then inf neg else finite neg (m * 2 ^ (e - e0).toNat) e0
    else
      pack neg (roundedQuotient m (e0 - e).toNat) e0

/-- The `float64` nearest to the rational `(-1)^neg * num / den` (`den > 0`):
the conversion of a decimal constant or of a JSON number. The quotient is
computed to at least 55 bits with a sticky bit for the remainder. -/
def ofRat (neg : Bool) (num den : Nat) : F64 :=
  let k : Nat := bitLen den + 55 - bitLen num
  let q : Nat := num * 2 ^ k / den
  let sticky : Nat := if num * 2 ^ k % den = 0 then 0 else 1
  round neg (2 * q + sticky) (-(k : Int) - 1)

/-- Exact signed integer value of a finite float scaled by `2^(-e)`. -/
def scaled (neg : Bool) (m : Nat) (shift : Nat) : Int :=
  if neg then -((m * 2 ^ shift : Nat) : Int) else ((m * 2 ^ shift : Nat) : Int)

/-- Multiplication of `float64` values (one rounding). -/
def mul : F64 → F64 → F64
  | nan, _ => nan
  | _, nan => nan
  | inf s, inf t => inf (xor s t)
  | inf s, finite t m _ => if m = 0 then nan else inf (xor s t)
  | finite s m _, inf t => if m = 0 then nan else inf (xor s t)
  | finite s m e, finite t n f => round (xor s t) (m * n) (e + f)

/-- Addition of `float64` values (one rounding). -/
def add : F64 → F64 → F64
  | nan, _ => nan
  | _, nan => nan
  | inf s, inf t => if s = t then inf s else nan
  | inf s, finite _ _ _ => inf s
  | finite _ _ _, inf t => inf t
  | finite s m e, finite t n f =>
    let g : Int := min e f
    let sum : Int := scaled s m (e - g).toNat + scaled t n (f - g).toNat
    if sum = 0 then finite (s && t) 0 (-1074)
    else round (decide (sum < 0)) sum.natAbs g

/-- Fused multiply-add `x*y + z`: the exact product and the exact sum, with
one rounding at the end. -/
def fma : F64 → F64 → F64 → F64
  | nan, _, _ => nan
  | _, nan, _ => nan
  | _, _, nan => nan
  | finite _ _ _, finite _ _ _, inf u => inf u
  | finite s m e, finite t n f, finite u p g =>
    let h : Int := min (e + f) g
    let sum : Int :=
      scaled (xor s t) (m * n) (e + f - h).toNat + scaled u p (g - h).toNat
    if sum = 0 then finite (xor s t && u) 0 (-1074)
    else round (decide (sum < 0)) sum.natAbs h
  | x, y, z => add (mul x y) z

/-- What `math.IsInf(f, 0) || math.IsNaN(f)` is false for. -/
def isFinite : F64 → Bool
  | finite _ _ _ => true
  | _ => false

end F64

/-! ## JSON documents -/

/-- Equality of Go results `(value, error)` is decidable. -/
instance instDecidableEqExcept {ε α : Type} [DecidableEq ε] [DecidableEq α] :
    DecidableEq (Except ε α)
  | .ok a, .ok b => if h : a = b then isTrue (by rw [h]) else isFalse (by intro h2; cases h2; exact h rfl)
  | .error a, .error b =>
    if h : a = b then isTrue (by rw [h]) else isFalse (by intro h2; cases h2; exact h rfl)
  | .ok _, .error _ => isFalse (by intro h; cases h)
  | .error _, .ok _ => isFalse (by intro h; cases h)

/-- The request document of both stages: `ZipCodeRequest`, field `cep`. -/
structure ZipCodeRequest where
  ZipCode : String
  deriving DecidableEq, Repr

/-- The error envelope `ErrorResponse`, field `message`. -/
structure ErrorResponse where
  Message : String
  deriving DecidableEq, Repr

/-- The success document `WeatherResponse` of the resolution stage. -/
structure WeatherResponse where
  City : String
  TempC : F64
  TempF : F64
  TempK : F64
  deriving DecidableEq, Repr

/-- The geocoding provider record `ViaCEPResponse`. -/
structure ViaCEPResponse where
  CEP : String
  Logradouro : String
  Complemento : String
  Bairro : String
  Localidade : String
  UF : String
  IBGE : String
  GIA : String
  DDD : String
  SIAFI : String
  Erro : Bool
  deriving DecidableEq, Repr

/-- The `location` object of `WeatherAPIResponse`. -/
structure WeatherAPILocation where
  Name : String
  Region : String
  Country : String
  deriving DecidableEq, Repr

/-- The `current` object of `WeatherAPIResponse`. -/
structure WeatherAPICurrent where
  TempC : F64
  deriving DecidableEq, Repr

/-- The weather provider record `WeatherAPIResponse`. -/
structure WeatherAPIResponse where
  Location : WeatherAPILocation
  Current : WeatherAPICurrent
  deriving DecidableEq, Repr

/-- Package `encoding/json`, as far as the two programs use it. Decoding and
encoding are taken as given functions; a decoder either fails or yields the
record. -/
structure Json where
  /-- What `json.NewDecoder(r.Body).Decode(&request)` does on a request body. -/
  decodeZipCodeRequest : String → Except String ZipCodeRequest
  /-- What `json.Unmarshal(body, &viaCEPResponse)` does. -/
  unmarshalViaCEP : String → Except String ViaCEPResponse
  /-- What `json.Unmarshal(body, &weatherResponse)` does. -/
  unmarshalWeatherAPI : String → Except String WeatherAPIResponse
  /-- The bytes of `json.Marshal(ZipCodeRequest{...})`. -/
  marshalZipCodeRequest : ZipCodeRequest → String
  /-- The bytes `Encode` writes for an `ErrorResponse`. -/
  encodeErrorResponse : ErrorResponse → String
  /-- The bytes `Encode` writes for a `WeatherResponse` all of whose numbers
  are finite. -/
  encodeFiniteWeatherResponse : WeatherResponse → String

/-- The call `Encode(response)` on a `WeatherResponse`: the encoder rejects a
`float64` that is infinite or not a number (`UnsupportedValueError`) and
then writes nothing. -/
def Json.encodeWeatherResponse (json : Json) (v : WeatherResponse) : Except String String :=
  if v.TempC.isFinite && v.TempF.isFinite && v.TempK.isFinite then
    .ok (json.encodeFiniteWeatherResponse v)
  else
    .error "json: unsupported value"

/-! ## HTTP -/

/-- An outbound request built with `http.NewRequestWithContext`. -/
structure HttpRequest where
  Method : String
  URL : String
  Body : String
  ContentType : Option String
  deriving DecidableEq, Repr

/-- The body of a received response: what `ioutil.ReadAll` returns for it. -/
inductive BodyStream where
  | readable (data : String) : BodyStream
  | failing (err : String) : BodyStream
  deriving DecidableEq, Repr

/-- A received `http.Response`. -/
structure HttpResponse where
  StatusCode : Nat
  Body : BodyStream
  deriving DecidableEq, Repr

/-- The surroundings of a handler call: process environment, URL parsing,
the network and the JSON package. -/
structure Env where
  /-- The function `os.Getenv`. -/
  getenv : String → String
  /-- Whether `http.NewRequestWithContext(ctx, method, url, body)` accepts the
  method and URL. -/
  newRequest : String → String → Except String Unit
  /-- The call `client.Do(req)`: an error (transport failure, timeout) or the
  response. -/
  Do : HttpRequest → Except String HttpResponse
  json : Json
  /-- Whether the compiled program evaluates `x*y + z` on `float64` as one
  fused multiply-add, which the language permits and the compiler does on
  some targets (arm64, GOAMD64=v3), or rounds the product and the sum
  separately. -/
  fusedMultiplyAdd : Bool

/-- An inbound request as the handlers read it. -/
structure Request where
  Method : String
  Body : String
  deriving DecidableEq, Repr

/-- Whether `net/http` lets a response of this status carry a body
(`bodyAllowedForStatus`): not the 1xx statuses, 204 and 304. -/
def bodyAllowedForStatus (status : Nat) : Bool :=
  !(decide (100 ≤ status ∧ status ≤ 199) || decide (status = 204) || decide (status = 304))

/-- The `http.ResponseWriter` of a handler call, as the `net/http` server
implements it. `header` is the Content-Type entry of the header map, `body`
the bytes sent so far, `informational` the 1xx interim responses sent so far.
The status line and the headers are fixed by the first `WriteHeader` with a
final status. `panicked` records that `WriteHeader` panicked on a status code
outside 100..999; the handler stops there, so every later operation on the
writer leaves it as it is. The handlers set the content type before every
body they write, so the content sniffing of the server does not arise. -/
structure ResponseWriter where
  header : Option String
  wroteHeader : Bool
  status : Nat
  sentContentType : Option String
  body : String
  informational : List Nat
  panicked : Bool
  deriving DecidableEq, Repr

namespace ResponseWriter

/-- The writer a handler starts with. -/
def fresh : ResponseWriter :=
  { header := none, wroteHeader := false, status := 0, sentContentType := none, body := "",
    informational := [], panicked := false }

/-- The call `w.Header().Set("Content-Type", value)`. -/
def setContentType (w : ResponseWriter) (value : String) : ResponseWriter :=
  if w.panicked then w else { w with header := some value }

/-- The call `w.WriteHeader(statusCode)`. After the status line is sent a
further call is ignored. A code below 100 or above 999 panics
(`checkWriteHeaderCode`). A 1xx code other than 101 sends an interim response
and leaves the final status open (the server does so since Go 1.19). Any other code fixes the status line and
the headers; from a 304 response the server removes the Content-Type. -/
def WriteHeader (w : ResponseWriter) (statusCode : Nat) : ResponseWriter :=
  if w.panicked then w
  else if w.wroteHeader then w
  else if statusCode < 100 ∨ statusCode > 999 then { w with panicked := true }
  else if 100 ≤ statusCode ∧ statusCode ≤ 199 ∧ statusCode ≠ 101 then
    { w with informational := w.informational ++ [statusCode] }
  else
    { w with
      wroteHeader := true, status := statusCode,
      sentContentType := if statusCode = 304 then none else w.header }

/-- The call `w.Write(data)`: sends status 200 first when no final status
was written yet; for a status that allows no body the data is refused
(`ErrBodyNotAllowed`) and nothing is sent. -/
def Write (w : ResponseWriter) (data : String) : ResponseWriter :=
  if w.panicked then w
  else
    let w1 := w.WriteHeader 200
    if bodyAllowedForStatus w1.status then { w1 with body := w1.body ++ data } else w1

end ResponseWriter

/-- What the client receives: the final status, the Content-Type header and
the body, after the interim 1xx responses `informational`. When the handler
panicked the server closes the connection without a response: `aborted` is
set and the other fields are void. -/
structure ClientResponse where
  status : Nat
  contentType : Option String
  body : String
  informational : List Nat := []
  aborted : Bool := false
  deriving DecidableEq, Repr

/-- The response on the wire once the handler has returned (a handler that
wrote nothing answers 200). -/
def ResponseWriter.response (w : ResponseWriter) : ClientResponse :=
  if w.panicked then
    { status := 0, contentType := none, body := "", informational := w.informational,
      aborted := true }
  else
    let w1 := w.WriteHeader 200
    { status := w1.status, contentType := w1.sentContentType, body := w1.body,
      informational := w1.informational }

/-- Result of a handler call: the writer and the outbound requests made, in
order. -/
structure Outcome where
  w : ResponseWriter
  calls : List HttpRequest
  deriving DecidableEq, Repr

/-- The function `sendErrorResponse` (the same in both programs). -/
def sendErrorResponse (json : Json) (w : ResponseWriter) (message : String)
    (statusCode : Nat) : ResponseWriter :=
  let w1 := w.setContentType "application/json"
  let w2 := w1.WriteHeader statusCode
  w2.Write (json.encodeErrorResponse { Message := message })

/-! ## service-b: the resolution stage -/

/-- The URL `fmt.Sprintf("https://viacep.com.br/ws/%s/json/", zipCode)`. -/
def viaCEPURL (zipCode : String) : String :=
  "https://viacep.com.br/ws/" ++ zipCode ++ "/json/"

/-- The URL
`fmt.Sprintf("https://api.weatherapi.com/v1/current.json?key=%s&q=%s&aqi=no", apiKey, city)`. -/
def weatherURL (apiKey city : String) : String :=
  "https://api.weatherapi.com/v1/current.json?key=" ++ apiKey ++ "&q=" ++ city ++ "&aqi=no"

/-- A body-less GET request. -/
def getRequest (url : String) : HttpRequest :=
  { Method := "GET", URL := url, Body := "", ContentType := none }

/-- The function `fetchCityByZipCode`: the result and the outbound requests
made. -/
def fetchCityByZipCode (env : Env) (zipCode : String) :
    Except String String × List HttpRequest :=
  let url := viaCEPURL zipCode
  match env.newRequest "GET" url with
  | .error err => (.error err, [])
  | .ok _ =>
    let req := getRequest url
    match env.Do req with
    | .error err => (.error err, [req])
    | .ok resp =>
      if resp.StatusCode ≠ 200 then
        (.error ("viacep returned status: " ++ toString resp.StatusCode), [req])
      else
        match resp.Body with
        | .failing err => (.error err, [req])
        | .readable body =>
          match env.json.unmarshalViaCEP body with
          | .error err => (.error err, [req])
          | .ok viaCEPResponse =>
            if viaCEPResponse.Erro then (.error "zipcode not found", [req])
            else (.ok viaCEPResponse.Localidade, [req])

/-- The function `fetchTemperature`: the result and the outbound requests
made. -/
def fetchTemperature (env : Env) (city : String) :
    Except String F64 × List HttpRequest :=
  let apiKey := env.getenv "WEATHER_API_KEY"
  if apiKey = "" then
    (.error "WEATHER_API_KEY environment variable not set", [])
  else
    let url := weatherURL apiKey city
    match env.newRequest "GET" url with
    | .error err => (.error err, [])
    | .ok _ =>
      let req := getRequest url
      match env.Do req with
      | .error err => (.error err, [req])
      | .ok resp =>
        if resp.StatusCode ≠ 200 then
          (.error ("weatherapi returned status: " ++ toString resp.StatusCode), [req])
        else
          match resp.Body with
          | .failing err => (.error err, [req])
          | .readable body =>
            match env.json.unmarshalWeatherAPI body with
            | .error err => (.error err, [req])
            | .ok weatherResponse => (.ok weatherResponse.Current.TempC, [req])

/-- The constant `1.8` as a `float64`. -/
def f64_1_8 : F64 := F64.ofRat false 18 10

/-- The constant `32` as a `float64`. -/
def f64_32 : F64 := F64.ofRat false 32 1

/-- The constant `273.15` as a `float64`. -/
def f64_273_15 : F64 := F64.ofRat false 27315 100

/-- The expression `tempC*1.8 + 32`: either the product and the sum are each
rounded, or, when the compiler fuses them (`fused`), the exact `tempC*1.8 + 32`
is rounded once. -/
def toFahrenheit (fused : Bool) (tempC : F64) : F64 :=
  if fused then F64.fma tempC f64_1_8 f64_32
  else F64.add (F64.mul tempC f64_1_8) f64_32

/-- The expression `tempC + 273.15`. -/
def toKelvin (tempC : F64) : F64 := F64.add tempC f64_273_15

/-- The handler `handleWeather`. -/
def handleWeather (env : Env) (r : Request) : Outcome :=
  let w := ResponseWriter.fresh
  if r.Method ≠ "POST" then
    { w := w.WriteHeader 405, calls := [] }
  else
    match env.json.decodeZipCodeRequest r.Body with
    | .error _ => { w := sendErrorResponse env.json w "invalid zipcode" 422, calls := [] }
    | .ok request =>
      if !validZipCode request.ZipCode then
        { w := sendErrorResponse env.json w "invalid zipcode" 422, calls := [] }
      else
        match fetchCityByZipCode env request.ZipCode with
        | (.error _, calls1) =>
          { w := sendErrorResponse env.json w "can not find zipcode" 404, calls := calls1 }
        | (.ok city, calls1) =>
          match fetchTemperature env city with
          | (.error _, calls2) =>
            { w := sendErrorResponse env.json w "error fetching temperature" 500,
              calls := calls1 ++ calls2 }
          | (.ok tempC, calls2) =>
            let tempF := toFahrenheit env.fusedMultiplyAdd tempC
            let tempK := toKelvin tempC
            let response : WeatherResponse :=
              { City := city, TempC := tempC, TempF := tempF, TempK := tempK }
            let w1 := w.setContentType "application/json"
            let w2 := w1.WriteHeader 200
            let w3 :=
              match env.json.encodeWeatherResponse response with
              | .ok data => w2.Write data
              | .error _ => w2
            { w := w3, calls := calls1 ++ calls2 }

/-! ## service-a: the edge stage -/

/-- The function `forwardToServiceB`: the response or an error, and the
outbound requests made. -/
def forwardToServiceB (env : Env) (zipCode : String) :
    Except String HttpResponse × List HttpRequest :=
  let serviceBURL :=
    if env.getenv "SERVICE_B_URL" = "" then "http://service-b:8081"
    else env.getenv "SERVICE_B_URL"
  let reqBody := env.json.marshalZipCodeRequest { ZipCode := zipCode }
  match env.newRequest "POST" (serviceBURL ++ "/weather") with
  | .error err => (.error err, [])
  | .ok _ =>
    let req : HttpRequest :=
      { Method := "POST", URL := serviceBURL ++ "/weather", Body := reqBody,
        ContentType := some "application/json" }
    match env.Do req with
    | .error err => (.error err, [req])
    | .ok resp => (.ok resp, [req])

/-- The handler `handleZipCode`. -/
def handleZipCode (env : Env) (r : Request) : Outcome :=
  let w := ResponseWriter.fresh
  if r.Method ≠ "POST" then
    { w := w.WriteHeader 405, calls := [] }
  else
    match env.json.decodeZipCodeRequest r.Body with
    | .error _ => { w := sendErrorResponse env.json w "invalid zipcode" 422, calls := [] }
    | .ok request =>
      if !validZipCode request.ZipCode then
        { w := sendErrorResponse env.json w "invalid zipcode" 422, calls := [] }
      else
        match forwardToServiceB env request.ZipCode with
        | (.error _, calls) =>
          { w := sendErrorResponse env.json w "error communicating with weather service" 500,
            calls := calls }
        | (.ok response, calls) =>
          let w1 := w.setContentType "application/json"
          let w2 := w1.WriteHeader response.StatusCode
          match response.Body with
          | .failing _ =>
            { w := sendErrorResponse env.json w2 "error processing response" 500,
              calls := calls }
          | .readable responseBody => { w := w2.Write responseBody, calls := calls }

/-- The JSON content type both stages set. -/
def jsonContentType : Option String := some "application/json"

/-! ## Failure causes of the lookups -/

/-- The location lookup fails: the request cannot be built, the transport
fails, the provider status is not 200, the body cannot be read or does not
decode, or the provider sets its not-found flag. -/
def locationFailureCause (env : Env) (zipCode : String) : Prop :=
  (∃ err, env.newRequest "GET" (viaCEPURL zipCode) = .error err) ∨
  (∃ err, env.Do (getRequest (viaCEPURL zipCode)) = .error err) ∨
  (∃ resp, env.Do (getRequest (viaCEPURL zipCode)) = .ok resp ∧
    (resp.StatusCode ≠ 200 ∨
     (∃ err, resp.Body = .failing err) ∨
     (∃ body, resp.Body = .readable body ∧
        ((∃ err, env.json.unmarshalViaCEP body = .error err) ∨
         (∃ v, env.json.unmarshalViaCEP body = .ok v ∧ v.Erro = true)))))

/-- The temperature lookup fails: the credential is unset, the request cannot
be built, the transport fails, the provider status is not 200, or the body
cannot be read or does not decode. -/
def temperatureFailureCause (env : Env) (city : String) : Prop :=
  env.getenv "WEATHER_API_KEY" = "" ∨
  (∃ err, env.newRequest "GET" (weatherURL (env.getenv "WEATHER_API_KEY") city) = .error err) ∨
  (∃ err, env.Do (getRequest (weatherURL (env.getenv "WEATHER_API_KEY") city)) = .error err) ∨
  (∃ resp, env.Do (getRequest (weatherURL (env.getenv "WEATHER_API_KEY") city)) = .ok resp ∧
    (resp.StatusCode ≠ 200 ∨
     (∃ err, resp.Body = .failing err) ∨
     (∃ body, resp.Body = .readable body ∧
        ∃ err, env.json.unmarshalWeatherAPI body = .error err)))

/-- The base URL of the resolution stage that `forwardToServiceB` uses. -/
def serviceBURL (env : Env) : String :=
  if env.getenv "SERVICE_B_URL" = "" then "http://service-b:8081"
  else env.getenv "SERVICE_B_URL"

/-- The request `forwardToServiceB` sends for a postal code. -/
def forwardRequest (env : Env) (zipCode : String) : HttpRequest :=
  { Method := "POST", URL := serviceBURL env ++ "/weather",
    Body := env.json.marshalZipCodeRequest { ZipCode := zipCode },
    ContentType := some "application/json" }

/-- The forward fails: the request cannot be built, or the transport fails
(which includes no response within the client timeout of 10 seconds). -/
def forwardFailureCause (env : Env) (zipCode : String) : Prop :=
  (∃ err, env.newRequest "POST" (serviceBURL env ++ "/weather") = .error err) ∨
  (∃ err, env.Do (forwardRequest env zipCode) = .error err)

/-- The writer of `handleZipCode` after it has relayed status `s` and body
`b`: `Header().Set`, `WriteHeader(s)`, `Write(b)`. -/
def relayedWriter (s : Nat) (b : String) : ResponseWriter :=
  ((ResponseWriter.fresh.setContentType "application/json").WriteHeader s).Write b

/-! ## URL query strings -/

/-- The function `strings.Cut` for a separator character: the text before the
first separator, and the text after it when there is one. -/
def cut (sep : Char) : List Char → List Char × Option (List Char)
  | [] => ([], none)
  | c :: rest =>
    if c = sep then ([], some rest)
    else ((c :: (cut sep rest).1), (cut sep rest).2)

/-- The query string of a URL: the fragment is removed at the first `#`, the
query is what follows the first `?` of the rest. -/
def rawQuery (url : String) : List Char :=
  match (cut '?' (cut '#' url.data).1).2 with
  | some q => q
  | none => []

/-- Split a text at every occurrence of the separator. -/
def splitAll (sep : Char) : List Char → List (List Char)
  | [] => [[]]
  | c :: rest =>
    if c = sep then [] :: splitAll sep rest
    else
      match splitAll sep rest with
      | [] => [[c]]
      | p :: ps => (c :: p) :: ps

/-- The parameters of a query string: split on `&`, then each parameter into
name and value on its first `=`. -/
def queryParams (q : List Char) : List (String × String) :=
  (splitAll '&' q).map fun p =>
    match cut '=' p with
    | (name, some value) => (String.mk name, String.mk value)
    | (name, none) => (String.mk name, "")

/-! ## Concrete surroundings for evaluating the handlers -/

/-- A geocoding record with the given city and not-found flag. -/
def viaCEPRecord (city : String) (erro : Bool) : ViaCEPResponse :=
  { CEP := "", Logradouro := "", Complemento := "", Bairro := "", Localidade := city,
    UF := "", IBGE := "", GIA := "", DDD := "", SIAFI := "", Erro := erro }

/-- A small instance of the JSON package: it knows the documents listed here
and rejects every other input. -/
def sampleJson : Json where
  decodeZipCodeRequest body :=
    if body = "\x7b\"cep\":\"01310100\"\x7d" then .ok { ZipCode := "01310100" }
    else if body = "\x7b\"cep\":\"00000000\"\x7d" then .ok { ZipCode := "00000000" }
    else if body = "\x7b\"cep\":\"123\"\x7d" then .ok { ZipCode := "123" }
    else .error "invalid character"
  unmarshalViaCEP body :=
    if body = "\x7b\"localidade\":\"São Paulo\"\x7d" then .ok (viaCEPRecord "São Paulo" false)
    else if body = "\x7b\"erro\":true\x7d" then .ok (viaCEPRecord "" true)
    else .error "invalid character"
  unmarshalWeatherAPI body :=
    if body = "\x7b\"current\":\x7b\"temp_c\":25.0\x7d\x7d" then
      .ok { Location := { Name := "", Region := "", Country := "" },
            Current := { TempC := F64.ofRat false 25 1 } }
    else if body = "\x7b\"current\":\x7b\"temp_c\":3.6\x7d\x7d" then
      .ok { Location := { Name := "", Region := "", Country := "" },
            Current := { TempC := F64.ofRat false 36 10 } }
    else if body = "\x7b\"current\":\x7b\"temp_c\":1e308\x7d\x7d" then
      .ok { Location := { Name := "", Region := "", Country := "" },
            Current := { TempC := F64.ofRat false (10 ^ 154 * 10 ^ 154) 1 } }
    else .error "invalid character"
  marshalZipCodeRequest request := "\x7b\"cep\":\"" ++ request.ZipCode ++ "\"\x7d"
  encodeErrorResponse e := "\x7b\"message\":\"" ++ e.Message ++ "\"\x7d\n"
  encodeFiniteWeatherResponse v :=
    if v = { City := "São Paulo", TempC := F64.ofRat false 25 1,
             TempF := F64.ofRat false 77 1, TempK := F64.ofRat false 29815 100 } then
      "\x7b\"city\":\"São Paulo\",\"temp_C\":25,\"temp_F\":77,\"temp_K\":298.15\x7d\n"
    else "\x7b\"city\":\"" ++ v.City ++ "\"\x7d\n"

/-- Surroundings of the resolution stage: credential `key`, a geocoding
provider that answers `geo` for postal code `zipCode`, and a weather provider
that answers `weather`. -/
def resolutionEnv (key zipCode : String) (geo weather : Except String HttpResponse) : Env where
  getenv name := if name = "WEATHER_API_KEY" then key else ""
  newRequest _ _ := .ok ()
  Do req := if req.URL = viaCEPURL zipCode then geo else weather
  json := sampleJson
  fusedMultiplyAdd := false

/-- The same surroundings with a program compiled to fuse `x*y + z`. -/
def fusedEnv (env : Env) : Env := { env with fusedMultiplyAdd := true }

/-- Surroundings of the edge stage: the resolution stage answers `reply`. -/
def edgeEnv (reply : Except String HttpResponse) : Env where
  getenv _ := ""
  newRequest _ _ := .ok ()
  Do _ := reply
  json := sampleJson
  fusedMultiplyAdd := false

/-- A POST request for the postal code 01310100. -/
def samplePost : Request := { Method := "POST", Body := "\x7b\"cep\":\"01310100\"\x7d" }

/-- A geocoding reply naming São Paulo. -/
def geoSaoPaulo : Except String HttpResponse :=
  .ok { StatusCode := 200, Body := .readable "\x7b\"localidade\":\"São Paulo\"\x7d" }

/-- A weather reply of 25.0 degrees Celsius. -/
def weather25 : Except String HttpResponse :=
  .ok { StatusCode := 200, Body := .readable "\x7b\"current\":\x7b\"temp_c\":25.0\x7d\x7d" }

/-- A weather reply of 1e308 degrees Celsius. -/
def weatherHuge : Except String HttpResponse :=
  .ok { StatusCode := 200, Body := .readable "\x7b\"current\":\x7b\"temp_c\":1e308\x7d\x7d" }

/-- A geocoding reply with the not-found flag set. -/
def geoNotFound : Except String HttpResponse :=
  .ok { StatusCode := 200, Body := .readable "\x7b\"erro\":true\x7d" }

/-- A reply of the resolution stage: status 404 with its error envelope. -/
def downstreamNotFound : Except String HttpResponse :=
  .ok { StatusCode := 404, Body := .readable "\x7b\"message\":\"can not find zipcode\"\x7d\n" }

/-- A reply of the resolution stage: status 200, and a body whose reading
fails. -/
def downstreamBrokenBody : Except String HttpResponse :=
  .ok { StatusCode := 200, Body := .failing "unexpected EOF" }

/-- A GET request carrying a valid postal-code document. -/
def sampleGet : Request := { Method := "GET", Body := "\x7b\"cep\":\"01310100\"\x7d" }

/-- A POST request for the code 123. -/
def shortPost : Request := { Method := "POST", Body := "\x7b\"cep\":\"123\"\x7d" }

/-- A POST request for the code 00000000. -/
def zeroPost : Request := { Method := "POST", Body := "\x7b\"cep\":\"00000000\"\x7d" }

/-- A weather reply of 3.6 degrees Celsius. -/
def weather3_6 : Except String HttpResponse :=
  .ok { StatusCode := 200, Body := .readable "\x7b\"current\":\x7b\"temp_c\":3.6\x7d\x7d" }

/-- A reply of the resolution stage with status 304 (which has no body). -/
def downstreamNotModified : Except String HttpResponse :=
  .ok { StatusCode := 304, Body := .readable "" }

/-- A reply of the resolution stage with the status code 099. -/
def downstreamBadStatus : Except String HttpResponse :=
  .ok { StatusCode := 99, Body := .readable "\x7b\x7d" }

/-! ## The postal-code check -/

theorem perlDigit_ends_nil (pre : List Char) :
    perlDigit.ends pre pre.length = [] := by
  simp [perlDigit, Regexp.ends]

theorem perlDigit_ends_cons (pre : List Char) (c : Char) (t : List Char) :
    perlDigit.ends (pre ++ c :: t) pre.length =
      if isAsciiDigit c then [pre.length + 1] else [] := by
  have hget : (pre ++ c :: t).get? pre.length = some c := by
    rw [List.get?_eq_getElem?, List.getElem?_append_right (Nat.le_refl _)]
    simp
  simp only [perlDigit, Regexp.ends, hget, isAsciiDigit]

theorem repEnds_perlDigit (n : Nat) : ∀ (pre suf : List Char),
    repEnds (fun p => perlDigit.ends (pre ++ suf) p) n pre.length =
      if n ≤ suf.length ∧ ∀ c ∈ suf.take n, isAsciiDigit c then [pre.length + n] else [] := by
  induction n with
  | zero => intro pre suf; simp [repEnds]
  | succ n ih =>
    intro pre suf
    cases suf with
    | nil =>
      simp only [repEnds, List.append_nil, perlDigit_ends_nil, List.flatMap_nil]
      simp
    | cons c t =>
      by_cases hc : isAsciiDigit c
      · have ih2 := ih (pre ++ [c]) t
        simp only [List.append_assoc, List.singleton_append, List.length_append,
          List.length_singleton] at ih2
        simp only [repEnds, perlDigit_ends_cons, hc, if_true, List.flatMap_cons,
          List.flatMap_nil, List.append_nil, ih2]
        simp [hc, Nat.add_assoc, Nat.add_comm 1 n]
      · simp only [repEnds, perlDigit_ends_cons, hc, if_false, List.flatMap_nil]
        simp [hc]

theorem zipCodePattern_ends (text : List Char) (start : Nat) :
    (zipCodePattern.ends text start).isEmpty = false ↔
      start = 0 ∧ text.length = 8 ∧ ∀ c ∈ text, isAsciiDigit c := by
  by_cases h0 : start = 0
  · subst h0
    have h := repEnds_perlDigit 8 [] text
    simp only [List.nil_append, List.length_nil, Nat.zero_add] at h
    have hz : zipCodePattern.ends text 0 =
        (repEnds (fun p => perlDigit.ends text p) 8 0).flatMap
          (fun p => if p = text.length then [p] else []) := by
      simp [zipCodePattern, Regexp.ends]
    rw [hz, h]
    by_cases hc : 8 ≤ text.length ∧ ∀ c ∈ text.take 8, isAsciiDigit c
    · rw [if_pos hc]
      by_cases hl : text.length = 8
      · have : text.take 8 = text := by rw [← hl]; exact List.take_length text
        rw [this] at hc
        simpa [hl] using hc.2
      · have : ¬ (8 = text.length) := fun h => hl h.symm
        simp [hl, this]
    · rw [if_neg hc]
      simp only [List.flatMap_nil, List.isEmpty_nil, true_and]
      constructor
      · intro h; cases h
      · rintro ⟨hl, hd⟩
        exact absurd ⟨by omega, fun c hc2 => hd c (List.mem_of_mem_take hc2)⟩ hc
  · simp [zipCodePattern, Regexp.ends, h0]

/-- C1: the postal-code check of both handlers accepts a string exactly when
it has 8 characters and each of them is a decimal digit `0`..`9`. -/
theorem validZipCode_iff (zipCode : String) :
    validZipCode zipCode = true ↔
      zipCode.length = 8 ∧ ∀ c ∈ zipCode.data, '0' ≤ c ∧ c ≤ '9' := by
  unfold validZipCode Regexp.matchString
  rw [List.any_eq_true]
  constructor
  · rintro ⟨start, _, hs⟩
    have h := (zipCodePattern_ends zipCode.data start).1 (by simpa using hs)
    exact ⟨h.2.1, h.2.2⟩
  · rintro ⟨hl, hd⟩
    refine ⟨0, by simp, ?_⟩
    have h := (zipCodePattern_ends zipCode.data 0).2 ⟨rfl, hl, hd⟩
    simp [h]

/-- The check on the inputs the specification singles out: a valid code, the
empty string, 7 and 9 digits, 8 digits followed by a newline, a sign, a
blank and a non-ASCII digit. -/
theorem validZipCode_examples :
    validZipCode "01310100" = true ∧ validZipCode "" = false ∧
    validZipCode "0131010" = false ∧ validZipCode "013101000" = false ∧
    validZipCode "01310100\n" = false ∧ validZipCode "+1310100" = false ∧
    validZipCode "0131 100" = false ∧ validZipCode "０1310100" = false := by
  decide


/-! ## Lemmas on the writer -/

theorem sendErrorResponse_fresh (json : Json) (message : String) (statusCode : Nat)
    (h1 : 200 ≤ statusCode) (h2 : statusCode ≤ 999) (h3 : statusCode ≠ 204)
    (h4 : statusCode ≠ 304) :
    (sendErrorResponse json ResponseWriter.fresh message statusCode).response =
      { status := statusCode, contentType := jsonContentType,
        body := json.encodeErrorResponse { Message := message } } := by
  have a1 : ¬ (statusCode < 100 ∨ statusCode > 999) := by omega
  have a2 : ¬ (100 ≤ statusCode ∧ statusCode ≤ 199 ∧ statusCode ≠ 101) := by omega
  have a3 : ¬ (100 ≤ statusCode ∧ statusCode ≤ 199) := by omega
  simp [sendErrorResponse, ResponseWriter.fresh, ResponseWriter.setContentType,
    ResponseWriter.WriteHeader, ResponseWriter.Write, ResponseWriter.response, jsonContentType,
    bodyAllowedForStatus, a1, a2, a3, h3, h4]

theorem sendErrorResponse_422 (json : Json) (message : String) :
    (sendErrorResponse json ResponseWriter.fresh message 422).response =
      { status := 422, contentType := jsonContentType,
        body := json.encodeErrorResponse { Message := message } } :=
  sendErrorResponse_fresh json message 422 (by decide) (by decide) (by decide) (by decide)

theorem sendErrorResponse_404 (json : Json) (message : String) :
    (sendErrorResponse json ResponseWriter.fresh message 404).response =
      { status := 404, contentType := jsonContentType,
        body := json.encodeErrorResponse { Message := message } } :=
  sendErrorResponse_fresh json message 404 (by decide) (by decide) (by decide) (by decide)

theorem sendErrorResponse_500 (json : Json) (message : String) :
    (sendErrorResponse json ResponseWriter.fresh message 500).response =
      { status := 500, contentType := jsonContentType,
        body := json.encodeErrorResponse { Message := message } } :=
  sendErrorResponse_fresh json message 500 (by decide) (by decide) (by decide) (by decide)

theorem writeHeader_405_response :
    (ResponseWriter.fresh.WriteHeader 405).response =
      { status := 405, contentType := none, body := "" } := by
  decide

/-! ## Lemmas on the lookups -/

theorem fetchCityByZipCode_fails_iff (env : Env) (zipCode : String) :
    (∃ err, (fetchCityByZipCode env zipCode).1 = .error err) ↔
      locationFailureCause env zipCode := by
  simp only [fetchCityByZipCode, locationFailureCause]
  cases h1 : env.newRequest "GET" (viaCEPURL zipCode) with
  | error e => simp
  | ok u =>
    cases h2 : env.Do (getRequest (viaCEPURL zipCode)) with
    | error e => simp
    | ok resp =>
      by_cases h3 : resp.StatusCode = 200
      · cases h4 : resp.Body with
        | failing e => simp [h3, h4]
        | readable body =>
          cases h5 : env.json.unmarshalViaCEP body with
          | error e => simp [h3, h4, h5]
          | ok v =>
            cases h6 : v.Erro <;> simp [h3, h4, h5, h6]
      · simp [h3]

theorem fetchCityByZipCode_calls (env : Env) (zipCode : String) :
    ∀ q ∈ (fetchCityByZipCode env zipCode).2, q = getRequest (viaCEPURL zipCode) := by
  simp only [fetchCityByZipCode]
  intro q
  repeat' split
  all_goals simp

theorem fetchCityByZipCode_ok_calls (env : Env) (zipCode city : String)
    (h : (fetchCityByZipCode env zipCode).1 = .ok city) :
    (fetchCityByZipCode env zipCode).2 = [getRequest (viaCEPURL zipCode)] := by
  simp only [fetchCityByZipCode] at h ⊢
  repeat' split
  all_goals simp_all

theorem fetchTemperature_fails_iff (env : Env) (city : String) :
    (∃ err, (fetchTemperature env city).1 = .error err) ↔
      temperatureFailureCause env city := by
  simp only [fetchTemperature, temperatureFailureCause]
  by_cases h0 : env.getenv "WEATHER_API_KEY" = ""
  · simp [h0]
  · cases h1 : env.newRequest "GET" (weatherURL (env.getenv "WEATHER_API_KEY") city) with
    | error e => simp [h0]
    | ok u =>
      cases h2 : env.Do (getRequest (weatherURL (env.getenv "WEATHER_API_KEY") city)) with
      | error e => simp [h0]
      | ok resp =>
        by_cases h3 : resp.StatusCode = 200
        · cases h4 : resp.Body with
          | failing e => simp [h0, h3, h4]
          | readable body =>
            cases h5 : env.json.unmarshalWeatherAPI body with
            | error e => simp [h0, h3, h4, h5]
            | ok v => simp [h0, h3, h4, h5]
        · simp [h0, h3]

theorem fetchTemperature_ok_calls (env : Env) (city : String) (tempC : F64)
    (h : (fetchTemperature env city).1 = .ok tempC) :
    (fetchTemperature env city).2 =
      [getRequest (weatherURL (env.getenv "WEATHER_API_KEY") city)] := by
  simp only [fetchTemperature] at h ⊢
  repeat' split
  all_goals simp_all

theorem fetchTemperature_unset (env : Env) (city : String)
    (h : env.getenv "WEATHER_API_KEY" = "") :
    fetchTemperature env city =
      (.error "WEATHER_API_KEY environment variable not set", []) := by
  simp [fetchTemperature, h]

theorem forwardToServiceB_fails_iff (env : Env) (zipCode : String) :
    (∃ err, (forwardToServiceB env zipCode).1 = .error err) ↔
      forwardFailureCause env zipCode := by
  simp only [forwardToServiceB, forwardFailureCause, forwardRequest, serviceBURL]
  cases h1 : env.newRequest "POST"
      ((if env.getenv "SERVICE_B_URL" = "" then "http://service-b:8081"
        else env.getenv "SERVICE_B_URL") ++ "/weather") with
  | error e => simp
  | ok u =>
    cases h2 : env.Do
        { Method := "POST",
          URL := (if env.getenv "SERVICE_B_URL" = "" then "http://service-b:8081"
            else env.getenv "SERVICE_B_URL") ++ "/weather",
          Body := env.json.marshalZipCodeRequest { ZipCode := zipCode },
          ContentType := some "application/json" } with
    | error e => simp [h2]
    | ok resp => simp [h2]

theorem forwardToServiceB_calls (env : Env) (zipCode : String) :
    ∀ q ∈ (forwardToServiceB env zipCode).2, q = forwardRequest env zipCode := by
  simp only [forwardToServiceB, forwardRequest, serviceBURL]
  intro q
  repeat' split
  all_goals simp

/-! ## Finiteness of the converted temperatures -/

set_option maxRecDepth 100000

theorem bitLenAux_spec : ∀ (fuel n : Nat), n ≤ fuel →
    n < 2 ^ F64.bitLenAux fuel n ∧ ∀ k, n < 2 ^ k → F64.bitLenAux fuel n ≤ k := by
  intro fuel
  induction fuel with
  | zero =>
    intro n hn
    have : n = 0 := by omega
    subst this
    simp [F64.bitLenAux]
  | succ fuel ih =>
    intro n hn
    by_cases h0 : n = 0
    · subst h0
      simp [F64.bitLenAux]
    · have hlt : n / 2 ≤ fuel := by omega
      obtain ⟨h1, h2⟩ := ih (n / 2) hlt
      simp only [F64.bitLenAux, h0, if_false]
      constructor
      · rw [pow_succ]
        omega
      · intro k hk
        cases k with
        | zero => simp at hk; omega
        | succ k =>
          have : n / 2 < 2 ^ k := by
            rw [pow_succ] at hk
            omega
          have := h2 k this
          omega

theorem lt_two_pow_bitLen (n : Nat) : n < 2 ^ F64.bitLen n :=
  (bitLenAux_spec n n (Nat.le_refl n)).1

theorem bitLen_le_of_lt (n k : Nat) (h : n < 2 ^ k) : F64.bitLen n ≤ k :=
  (bitLenAux_spec n n (Nat.le_refl n)).2 k h

theorem roundedQuotient_le (m sh : Nat) : F64.roundedQuotient m sh ≤ m / 2 ^ sh + 1 := by
  unfold F64.roundedQuotient
  simp only []
  split <;> omega

theorem pack_isFinite (neg : Bool) (q : Nat) (e : Int) :
    (F64.pack neg q e).isFinite = true ↔ (if q = 2 ^ 53 then e + 1 else e) ≤ 971 := by
  unfold F64.pack
  simp only []
  by_cases h : (if q = 2 ^ 53 then e + 1 else e) > 971
  · rw [if_pos h]
    simp only [F64.isFinite]
    constructor
    · intro h2; cases h2
    · intro h2; omega
  · rw [if_neg h]
    simp only [F64.isFinite, true_iff]
    omega

/-- A finite rounding result bounds the binary length of the exact value. -/
theorem round_finite_bound (neg : Bool) (m : Nat) (e : Int) (hm : m ≠ 0)
    (h : (F64.round neg m e).isFinite = true) : e + (F64.bitLen m : Int) ≤ 1024 := by
  by_contra hcon
  have hmax : max (e + (F64.bitLen m : Int) - 53) (-1074) = e + (F64.bitLen m : Int) - 53 := by
    omega
  simp only [F64.round, hm, if_false, hmax] at h
  by_cases hex : e + (F64.bitLen m : Int) - 53 ≤ e
  · rw [if_pos hex] at h
    have hgt : e + (F64.bitLen m : Int) - 53 > 971 := by omega
    rw [if_pos hgt] at h
    cases h
  · rw [if_neg hex, pack_isFinite] at h
    split at h <;> omega

/-- An exact value below the largest finite `float64` rounds to a finite
value. -/
theorem round_finite_of_lt (neg : Bool) (m : Nat) (e : Int) (he : e ≤ 971)
    (h : m < (2 ^ 53 - 1) * 2 ^ (971 - e).toNat) :
    (F64.round neg m e).isFinite = true := by
  by_cases hm : m = 0
  · simp [F64.round, hm, F64.isFinite]
  have hlen : F64.bitLen m ≤ 53 + (971 - e).toNat := by
    apply bitLen_le_of_lt
    calc m < (2 ^ 53 - 1) * 2 ^ (971 - e).toNat := h
      _ ≤ 2 ^ 53 * 2 ^ (971 - e).toNat := Nat.mul_le_mul_right _ (by norm_num)
      _ = 2 ^ (53 + (971 - e).toNat) := by rw [pow_add]
  have he0 : max (e + (F64.bitLen m : Int) - 53) (-1074) ≤ 971 := by omega
  simp only [F64.round, hm, if_false]
  by_cases hex : max (e + (F64.bitLen m : Int) - 53) (-1074) ≤ e
  · rw [if_pos hex, if_neg (by omega)]
    rfl
  · rw [if_neg hex, pack_isFinite]
    by_cases htop : max (e + (F64.bitLen m : Int) - 53) (-1074) = 971
    · rw [htop]
      have hsh : (971 - e).toNat = (971 - e).toNat := rfl
      have hdiv : m / 2 ^ (971 - e).toNat < 2 ^ 53 - 1 := by
        rw [Nat.div_lt_iff_lt_mul (by positivity)]
        exact h
      have hq := roundedQuotient_le m (971 - e).toNat
      have hne : F64.roundedQuotient m (971 - e).toNat ≠ 2 ^ 53 := by omega
      rw [if_neg hne]
    · split <;> omega

/-- The model against known `float64` facts: `0.1 + 0.2` is the float above
`0.3`, `-25 + 25` is `+0`, `5e-324` is the least subnormal and half of it
rounds to zero, the largest finite value, and overflow at `2^1024 - 2^970`. -/
theorem F64_examples :
    F64.add (F64.ofRat false 1 10) (F64.ofRat false 2 10) =
      F64.finite false 5404319552844596 (-54) ∧
    F64.ofRat false 3 10 = F64.finite false 5404319552844595 (-54) ∧
    F64.add (F64.ofRat true 25 1) (F64.ofRat false 25 1) = F64.finite false 0 (-1074) ∧
    F64.ofRat false 5 (10 ^ 162 * 10 ^ 162) = F64.finite false 1 (-1074) ∧
    F64.ofRat false 2 (10 ^ 162 * 10 ^ 162) = F64.finite false 0 (-1074) ∧
    F64.ofRat false (2 ^ 1024 - 2 ^ 970 - 1) 1 = F64.finite false 9007199254740991 971 ∧
    F64.ofRat false (2 ^ 1024 - 2 ^ 970) 1 = F64.inf false := by
  decide!

/-- The two evaluations of `tempC*1.8 + 32` differ: for 3.6 the separately
rounded value is 38.480000000000004 and the fused value is 38.48; for 25.0
both are 77.0. -/
theorem toFahrenheit_examples :
    toFahrenheit false (F64.ofRat false 36 10) = F64.finite false 5415578551913022 (-47) ∧
    toFahrenheit true (F64.ofRat false 36 10) = F64.finite false 5415578551913021 (-47) ∧
    F64.ofRat false 3848 100 = F64.finite false 5415578551913021 (-47) ∧
    toFahrenheit false (F64.ofRat false 25 1) = F64.ofRat false 77 1 ∧
    toFahrenheit true (F64.ofRat false 25 1) = F64.ofRat false 77 1 := by
  decide!

theorem f64_1_8_eq : f64_1_8 = F64.finite false 8106479329266893 (-52) := by decide

theorem f64_32_eq : f64_32 = F64.finite false 4503599627370496 (-47) := by decide

theorem f64_273_15_eq : f64_273_15 = F64.finite false 4805305618032230 (-44) := by decide

theorem add_finite_isFinite (x : F64) (neg : Bool) (m : Nat) (e : Int)
    (h : (F64.add x (F64.finite neg m e)).isFinite = true) : x.isFinite = true := by
  cases x with
  | finite s n f => rfl
  | inf s => simp [F64.add, F64.isFinite] at h
  | nan => simp [F64.add, F64.isFinite] at h

theorem natAbs_scaled_add_le (s : Bool) (m a n b : Nat) :
    (F64.scaled s m a + F64.scaled false n b).natAbs ≤ m * 2 ^ a + n * 2 ^ b := by
  unfold F64.scaled
  generalize m * 2 ^ a = x
  generalize n * 2 ^ b = y
  cases s
  · simp only [Bool.false_eq_true, if_false]
    omega
  · simp only [if_true, Bool.false_eq_true, if_false]
    omega

theorem le_natAbs_scaled_add (s : Bool) (m a n b : Nat) :
    m * 2 ^ a ≤ (F64.scaled s m a + F64.scaled false n b).natAbs + n * 2 ^ b := by
  unfold F64.scaled
  generalize m * 2 ^ a = x
  generalize n * 2 ^ b = y
  cases s
  · simp only [Bool.false_eq_true, if_false]
    omega
  · simp only [if_true, Bool.false_eq_true, if_false]
    omega

/-- The sum `tempC + 273.15` is finite when `tempC * 1.8` is below
`2^1024 + 32`. -/
theorem toKelvin_finite_of_bound (s : Bool) (m : Nat) (e : Int)
    (hb : m * 8106479329266893 * 2 ^ (e - min e (-44)).toNat <
      (2 ^ 1120 + 4503599627370496 * 2 ^ 49) * 2 ^ (-44 - min e (-44)).toNat) :
    (toKelvin (F64.finite s m e)).isFinite = true := by
  rw [toKelvin, f64_273_15_eq]
  simp only [F64.add]
  split
  · rfl
  · apply round_finite_of_lt _ _ _ (by omega)
    refine lt_of_le_of_lt (natAbs_scaled_add_le s m _ 4805305618032230 _) ?_
    by_contra hcon
    rw [not_lt] at hcon
    obtain ⟨a, ha⟩ : ∃ a, a = (e - min e (-44)).toNat := ⟨_, rfl⟩
    obtain ⟨b, hb2⟩ : ∃ b, b = (-44 - min e (-44)).toNat := ⟨_, rfl⟩
    rw [← ha, ← hb2] at hcon hb
    have e1 : (971 - min e (-44)).toNat = 1015 + b := by omega
    rw [e1] at hcon
    have h2 : ((2 ^ 53 - 1) * 2 ^ 1015 - 4805305618032230) * 2 ^ b ≤ m * 2 ^ a := by
      rw [Nat.sub_mul]
      rw [pow_add, ← Nat.mul_assoc] at hcon
      omega
    have h3 : 2 ^ 1120 + 4503599627370496 * 2 ^ 49 ≤
        ((2 ^ 53 - 1) * 2 ^ 1015 - 4805305618032230) * 8106479329266893 := by
      norm_num
    have h4 : (2 ^ 1120 + 4503599627370496 * 2 ^ 49) * 2 ^ b ≤
        m * 8106479329266893 * 2 ^ a := by
      calc (2 ^ 1120 + 4503599627370496 * 2 ^ 49) * 2 ^ b
          ≤ ((2 ^ 53 - 1) * 2 ^ 1015 - 4805305618032230) * 8106479329266893 * 2 ^ b :=
            Nat.mul_le_mul_right _ h3
        _ = ((2 ^ 53 - 1) * 2 ^ 1015 - 4805305618032230) * 2 ^ b * 8106479329266893 := by
            ring
        _ ≤ m * 2 ^ a * 8106479329266893 := Nat.mul_le_mul_right _ h2
        _ = m * 8106479329266893 * 2 ^ a := by ring
    omega

theorem bitLen_pos (n : Nat) (h : n ≠ 0) : 1 ≤ F64.bitLen n := by
  have hlt := lt_two_pow_bitLen n
  by_contra h0
  have : F64.bitLen n = 0 := by omega
  rw [this] at hlt
  omega

/-- Separate roundings: a finite `tempC*1.8 + 32` bounds `tempC * 1.8`. -/
theorem bound_of_unfused (s : Bool) (m : Nat) (e : Int)
    (h : (toFahrenheit false (F64.finite s m e)).isFinite = true) :
    m * 8106479329266893 * 2 ^ (e - min e (-44)).toNat <
      (2 ^ 1120 + 4503599627370496 * 2 ^ 49) * 2 ^ (-44 - min e (-44)).toNat := by
  have hmul : (F64.round (xor s false) (m * 8106479329266893) (e + -52)).isFinite = true := by
    simp only [toFahrenheit, Bool.false_eq_true, if_false] at h
    rw [f64_1_8_eq, f64_32_eq] at h
    exact add_finite_isFinite _ _ _ _ h
  by_cases hm : m = 0
  · subst hm
    simp only [Nat.zero_mul]
    positivity
  · have hprod : m * 8106479329266893 ≠ 0 := by
      intro h0
      rcases Nat.mul_eq_zero.1 h0 with h1 | h1
      · exact hm h1
      · omega
    have hA := round_finite_bound _ _ _ hprod hmul
    have hlt := lt_two_pow_bitLen (m * 8106479329266893)
    have hpos := bitLen_pos _ hprod
    obtain ⟨a, ha⟩ : ∃ a, a = (e - min e (-44)).toNat := ⟨_, rfl⟩
    obtain ⟨b, hb⟩ : ∃ b, b = (-44 - min e (-44)).toNat := ⟨_, rfl⟩
    rw [← ha, ← hb]
    have e2 : F64.bitLen (m * 8106479329266893) + a ≤ 1120 + b := by omega
    calc m * 8106479329266893 * 2 ^ a
        < 2 ^ F64.bitLen (m * 8106479329266893) * 2 ^ a :=
          Nat.mul_lt_mul_of_pos_right hlt (by positivity)
      _ = 2 ^ (F64.bitLen (m * 8106479329266893) + a) := by rw [pow_add]
      _ ≤ 2 ^ (1120 + b) := Nat.pow_le_pow_right (by norm_num) e2
      _ = 2 ^ 1120 * 2 ^ b := by rw [pow_add]
      _ ≤ (2 ^ 1120 + 4503599627370496 * 2 ^ 49) * 2 ^ b :=
          Nat.mul_le_mul_right _ (Nat.le_add_right _ _)

/-- One fused rounding: a finite `tempC*1.8 + 32` bounds `tempC * 1.8`. -/
theorem bound_of_fused (s : Bool) (m : Nat) (e : Int)
    (h : (toFahrenheit true (F64.finite s m e)).isFinite = true) :
    m * 8106479329266893 * 2 ^ (e - min e (-44)).toNat <
      (2 ^ 1120 + 4503599627370496 * 2 ^ 49) * 2 ^ (-44 - min e (-44)).toNat := by
  simp only [toFahrenheit, if_true] at h
  rw [f64_1_8_eq, f64_32_eq] at h
  simp only [F64.fma] at h
  obtain ⟨a0, ha0⟩ : ∃ a0, a0 = (e + -52 - min (e + -52) (-47)).toNat := ⟨_, rfl⟩
  obtain ⟨b0, hb0⟩ : ∃ b0, b0 = (-47 - min (e + -52) (-47)).toNat := ⟨_, rfl⟩
  obtain ⟨H, hH⟩ : ∃ H, H = (1024 - min (e + -52) (-47)).toNat := ⟨_, rfl⟩
  rw [← ha0, ← hb0] at h
  have hle := le_natAbs_scaled_add (xor s false) (m * 8106479329266893) a0 4503599627370496 b0
  -- the exact sum is below `2^H`
  have hsum : (F64.scaled (xor s false) (m * 8106479329266893) a0 +
      F64.scaled false 4503599627370496 b0).natAbs < 2 ^ H := by
    by_cases h0 : F64.scaled (xor s false) (m * 8106479329266893) a0 +
        F64.scaled false 4503599627370496 b0 = 0
    · rw [h0]
      simp
    · rw [if_neg h0] at h
      have hne : (F64.scaled (xor s false) (m * 8106479329266893) a0 +
          F64.scaled false 4503599627370496 b0).natAbs ≠ 0 := by
        simpa using h0
      have hA := round_finite_bound _ _ _ hne h
      have hlt := lt_two_pow_bitLen (F64.scaled (xor s false) (m * 8106479329266893) a0 +
          F64.scaled false 4503599627370496 b0).natAbs
      refine lt_of_lt_of_le hlt (Nat.pow_le_pow_right (by norm_num) ?_)
      omega
  have hP : m * 8106479329266893 * 2 ^ a0 < 2 ^ H + 4503599627370496 * 2 ^ b0 := by omega
  obtain ⟨a, ha⟩ : ∃ a, a = (e - min e (-44)).toNat := ⟨_, rfl⟩
  obtain ⟨b, hb⟩ : ∃ b, b = (-44 - min e (-44)).toNat := ⟨_, rfl⟩
  rw [← ha, ← hb]
  obtain ⟨c, hc⟩ : ∃ c, c = a - a0 := ⟨_, rfl⟩
  have r1 : a0 + c = a := by omega
  have r2 : H + c = 1120 + b := by omega
  have r3 : b0 + c = 49 + b := by omega
  calc m * 8106479329266893 * 2 ^ a
      = m * 8106479329266893 * 2 ^ a0 * 2 ^ c := by rw [← r1, pow_add]; ring
    _ < (2 ^ H + 4503599627370496 * 2 ^ b0) * 2 ^ c :=
        Nat.mul_lt_mul_of_pos_right hP (by positivity)
    _ = 2 ^ (H + c) + 4503599627370496 * 2 ^ (b0 + c) := by
        rw [pow_add, pow_add]; ring
    _ = (2 ^ 1120 + 4503599627370496 * 2 ^ 49) * 2 ^ b := by
        rw [r2, r3, pow_add, pow_add 2 49 b]; ring

/-- When `tempC*1.8 + 32` is finite, under either evaluation, `tempC` is
finite. -/
theorem toFahrenheit_finite (fused : Bool) (tempC : F64)
    (h : (toFahrenheit fused tempC).isFinite = true) : tempC.isFinite = true := by
  cases tempC with
  | finite s m e => rfl
  | inf s =>
    have : toFahrenheit fused (F64.inf s) = F64.inf s := by
      cases fused <;> cases s <;> decide
    rw [this] at h
    exact h
  | nan =>
    have : toFahrenheit fused F64.nan = F64.nan := by cases fused <;> decide
    rw [this] at h
    exact h

/-- When `tempC*1.8 + 32` is finite, under either evaluation, so is
`tempC + 273.15`. -/
theorem toKelvin_finite (fused : Bool) (tempC : F64)
    (h : (toFahrenheit fused tempC).isFinite = true) :
    (toKelvin tempC).isFinite = true := by
  cases tempC with
  | inf s =>
    have := toFahrenheit_finite fused (F64.inf s) h
    cases this
  | nan =>
    have := toFahrenheit_finite fused F64.nan h
    cases this
  | finite s m e =>
    apply toKelvin_finite_of_bound
    cases fused
    · exact bound_of_unfused s m e h
    · exact bound_of_fused s m e h

/-! ## The resolution stage -/

/-- C2 (as stated): the claim fails for a Celsius value whose Fahrenheit value
overflows. With the provider answering 1e308 for the city, the lookups
succeed, `tempC*1.8 + 32` is infinite under either evaluation, and the answer
is status 200 with an empty body, not a WeatherResult. -/
theorem handleWeather_success_overflow :
    (fetchCityByZipCode (resolutionEnv "secret" "01310100" geoSaoPaulo weatherHuge)
        "01310100").1 = .ok "São Paulo" ∧
    (fetchTemperature (resolutionEnv "secret" "01310100" geoSaoPaulo weatherHuge)
        "São Paulo").1 = .ok (F64.ofRat false (10 ^ 154 * 10 ^ 154) 1) ∧
    F64.ofRat false (10 ^ 154 * 10 ^ 154) 1 = F64.finite false 5010420900022432 971 ∧
    toFahrenheit false (F64.ofRat false (10 ^ 154 * 10 ^ 154) 1) = F64.inf false ∧
    toFahrenheit true (F64.ofRat false (10 ^ 154 * 10 ^ 154) 1) = F64.inf false ∧
    (handleWeather (resolutionEnv "secret" "01310100" geoSaoPaulo weatherHuge)
        samplePost).w.response =
      { status := 200, contentType := jsonContentType, body := "" } ∧
    (handleWeather (fusedEnv (resolutionEnv "secret" "01310100" geoSaoPaulo weatherHuge))
        samplePost).w.response =
      { status := 200, contentType := jsonContentType, body := "" } ∧
    (handleWeather (resolutionEnv "secret" "01310100" geoSaoPaulo weatherHuge)
        samplePost).w.response.body ≠
      sampleJson.encodeFiniteWeatherResponse
        { City := "São Paulo", TempC := F64.ofRat false (10 ^ 154 * 10 ^ 154) 1,
          TempF := toFahrenheit false (F64.ofRat false (10 ^ 154 * 10 ^ 154) 1),
          TempK := toKelvin (F64.ofRat false (10 ^ 154 * 10 ^ 154) 1) } := by
  decide!

/-- C2 (amended): for a POST request whose code passes validation, when the
geocoding lookup succeeds with `city` and the weather lookup for `city`
succeeds with `tempC`, and the `float64` value of `tempC*1.8+32` is finite (no
overflow), `handleWeather` contacts the geocoding provider first and the
weather provider second, with exactly that city, and answers status 200,
content type JSON, with the WeatherResponse of `city`, `tempC`,
`tempC*1.8+32` and `tempC+273.15`. Here `tempC*1.8+32` is the value the
compiled program computes: product and sum rounded separately, or fused into
one rounding, as `env.fusedMultiplyAdd` says. For 25.0 the Fahrenheit value
is 77.0 under both evaluations and the Kelvin value is 298.15. -/
theorem handleWeather_success (env : Env) (r : Request) (request : ZipCodeRequest)
    (city : String) (tempC : F64)
    (hm : r.Method = "POST")
    (hd : env.json.decodeZipCodeRequest r.Body = .ok request)
    (hv : validZipCode request.ZipCode = true)
    (hcity : (fetchCityByZipCode env request.ZipCode).1 = .ok city)
    (htemp : (fetchTemperature env city).1 = .ok tempC)
    (hF : (toFahrenheit env.fusedMultiplyAdd tempC).isFinite = true) :
    (handleWeather env r).w.response =
      { status := 200, contentType := jsonContentType,
        body := env.json.encodeFiniteWeatherResponse
          { City := city, TempC := tempC,
            TempF := toFahrenheit env.fusedMultiplyAdd tempC,
            TempK := toKelvin tempC } } ∧
    (handleWeather env r).calls =
      [getRequest (viaCEPURL request.ZipCode),
       getRequest (weatherURL (env.getenv "WEATHER_API_KEY") city)] ∧
    (∀ fused, toFahrenheit fused (F64.ofRat false 25 1) = F64.ofRat false 77 1) ∧
    toKelvin (F64.ofRat false 25 1) = F64.ofRat false 29815 100 := by
  have hC : tempC.isFinite = true := toFahrenheit_finite _ tempC hF
  have hK : (toKelvin tempC).isFinite = true := toKelvin_finite _ tempC hF
  have hc1 := fetchCityByZipCode_ok_calls env request.ZipCode city hcity
  have hc2 := fetchTemperature_ok_calls env city tempC htemp
  have e1 : fetchCityByZipCode env request.ZipCode =
      (.ok city, [getRequest (viaCEPURL request.ZipCode)]) := Prod.ext hcity hc1
  have e2 : fetchTemperature env city =
      (.ok tempC, [getRequest (weatherURL (env.getenv "WEATHER_API_KEY") city)]) :=
    Prod.ext htemp hc2
  refine ⟨?_, ?_, by decide, by decide⟩
  · simp [handleWeather, hm, hd, hv, e1, e2, Json.encodeWeatherResponse, hC, hF, hK,
      ResponseWriter.fresh, ResponseWriter.setContentType, ResponseWriter.WriteHeader,
      ResponseWriter.Write, ResponseWriter.response, jsonContentType, bodyAllowedForStatus]
  · simp [handleWeather, hm, hd, hv, e1, e2]

/-- C2 (amended), at the code 01310100 resolved to São Paulo at 25.0
degrees Celsius, for a program that rounds twice and for one that fuses. -/
theorem handleWeather_success_witness :
    ((handleWeather (resolutionEnv "secret" "01310100" geoSaoPaulo weather25)
        samplePost).w.response =
      { status := 200, contentType := jsonContentType,
        body := "\x7b\"city\":\"São Paulo\",\"temp_C\":25,\"temp_F\":77,\"temp_K\":298.15\x7d\n" } ∧
    (handleWeather (resolutionEnv "secret" "01310100" geoSaoPaulo weather25)
        samplePost).calls =
      [getRequest (viaCEPURL "01310100"), getRequest (weatherURL "secret" "São Paulo")] ∧
    (∀ fused, toFahrenheit fused (F64.ofRat false 25 1) = F64.ofRat false 77 1) ∧
    toKelvin (F64.ofRat false 25 1) = F64.ofRat false 29815 100) ∧
    (handleWeather (fusedEnv (resolutionEnv "secret" "01310100" geoSaoPaulo weather25))
        samplePost).w.response =
      { status := 200, contentType := jsonContentType,
        body := "\x7b\"city\":\"São Paulo\",\"temp_C\":25,\"temp_F\":77,\"temp_K\":298.15\x7d\n" } :=
  ⟨handleWeather_success (resolutionEnv "secret" "01310100" geoSaoPaulo weather25)
    samplePost { ZipCode := "01310100" } "São Paulo" (F64.ofRat false 25 1)
    (by decide) (by decide) (by decide) (by decide) (by decide) (by decide),
   (handleWeather_success (fusedEnv (resolutionEnv "secret" "01310100" geoSaoPaulo weather25))
    samplePost { ZipCode := "01310100" } "São Paulo" (F64.ofRat false 25 1)
    (by decide) (by decide) (by decide) (by decide) (by decide) (by decide)).1⟩

/-- C3: for a POST request whose code passes validation, when the location
lookup fails for any of its causes, `handleWeather` answers status 404 with
the error envelope `can not find zipcode`, whatever the cause, and every
outbound request made is the geocoding request: the weather provider is not
contacted. -/
theorem handleWeather_location_failure (env : Env) (r : Request) (request : ZipCodeRequest)
    (hm : r.Method = "POST")
    (hd : env.json.decodeZipCodeRequest r.Body = .ok request)
    (hv : validZipCode request.ZipCode = true)
    (hcause : locationFailureCause env request.ZipCode) :
    (handleWeather env r).w.response =
      { status := 404, contentType := jsonContentType,
        body := env.json.encodeErrorResponse { Message := "can not find zipcode" } } ∧
    ∀ q ∈ (handleWeather env r).calls, q = getRequest (viaCEPURL request.ZipCode) := by
  obtain ⟨err, herr⟩ := (fetchCityByZipCode_fails_iff env request.ZipCode).2 hcause
  have hcalls := fetchCityByZipCode_calls env request.ZipCode
  rcases hfc : fetchCityByZipCode env request.ZipCode with ⟨res, calls1⟩
  rw [hfc] at herr hcalls
  simp only at herr hcalls
  subst herr
  have hout : handleWeather env r =
      { w := sendErrorResponse env.json ResponseWriter.fresh "can not find zipcode" 404,
        calls := calls1 } := by
    simp [handleWeather, hm, hd, hv, hfc]
  rw [hout]
  exact ⟨sendErrorResponse_404 _ _, hcalls⟩

/-- C3, at the code 00000000 for which the provider reports not-found. -/
theorem handleWeather_location_failure_witness :
    locationFailureCause
      (resolutionEnv "secret" "00000000" geoNotFound weather25)
      "00000000" ∧
    (handleWeather
      (resolutionEnv "secret" "00000000" geoNotFound weather25)
      zeroPost).w.response =
      { status := 404, contentType := jsonContentType,
        body := "\x7b\"message\":\"can not find zipcode\"\x7d\n" } :=
  have hcause : locationFailureCause
      (resolutionEnv "secret" "00000000" geoNotFound weather25)
      "00000000" :=
    Or.inr (Or.inr ⟨{ StatusCode := 200, Body := .readable "\x7b\"erro\":true\x7d" },
      by decide, Or.inr (Or.inr ⟨"\x7b\"erro\":true\x7d", rfl,
        Or.inr ⟨viaCEPRecord "" true, by decide, rfl⟩⟩)⟩)
  ⟨hcause,
   (handleWeather_location_failure
      (resolutionEnv "secret" "00000000" geoNotFound weather25) zeroPost
      { ZipCode := "00000000" } (by decide) (by decide) (by decide) hcause).1⟩

/-- C4: for a POST request whose code passes validation and whose location
lookup succeeds, when the temperature lookup fails for any of its causes,
`handleWeather` answers status 500 with the error envelope
`error fetching temperature`; and with the credential unset,
`fetchTemperature` fails for every city without any outbound request, and no
request is answered 200. -/
theorem handleWeather_temperature_failure (env : Env) (r : Request)
    (request : ZipCodeRequest) (city : String) :
    (r.Method = "POST" →
      env.json.decodeZipCodeRequest r.Body = .ok request →
      validZipCode request.ZipCode = true →
      (fetchCityByZipCode env request.ZipCode).1 = .ok city →
      temperatureFailureCause env city →
      (handleWeather env r).w.response =
        { status := 500, contentType := jsonContentType,
          body := env.json.encodeErrorResponse { Message := "error fetching temperature" } }) ∧
    (env.getenv "WEATHER_API_KEY" = "" →
      (∀ c, ∃ err, fetchTemperature env c = (.error err, [])) ∧
      ∀ r2, (handleWeather env r2).w.response.status ≠ 200) := by
  constructor
  · intro hm hd hv hcity hcause
    obtain ⟨err, herr⟩ := (fetchTemperature_fails_iff env city).2 hcause
    rcases hfc : fetchCityByZipCode env request.ZipCode with ⟨res, calls1⟩
    rcases hft : fetchTemperature env city with ⟨res2, calls2⟩
    rw [hfc] at hcity
    rw [hft] at herr
    simp only at hcity herr
    subst hcity herr
    have hout : handleWeather env r =
        { w := sendErrorResponse env.json ResponseWriter.fresh "error fetching temperature" 500,
          calls := calls1 ++ calls2 } := by
      simp [handleWeather, hm, hd, hv, hfc, hft]
    rw [hout]
    exact sendErrorResponse_500 _ _
  · intro hkey
    refine ⟨fun c => ⟨_, fetchTemperature_unset env c hkey⟩, ?_⟩
    intro r2
    simp only [handleWeather]
    by_cases hm : r2.Method = "POST"
    · cases hd : env.json.decodeZipCodeRequest r2.Body with
      | error e => simp [hm, sendErrorResponse_422]
      | ok q =>
        by_cases hv : validZipCode q.ZipCode = true
        · rcases hfc : fetchCityByZipCode env q.ZipCode with ⟨res, calls1⟩
          cases res with
          | error e => simp [hm, hv, hfc, sendErrorResponse_404]
          | ok c =>
            simp [hm, hv, hfc, fetchTemperature_unset env c hkey, sendErrorResponse_500]
        · simp [hm, hv, sendErrorResponse_422]
    · simp [hm, writeHeader_405_response]

/-- C4, at a resolution stage started without the credential. -/
theorem handleWeather_temperature_failure_witness :
    temperatureFailureCause (resolutionEnv "" "01310100" geoSaoPaulo weather25) "São Paulo" ∧
    (handleWeather (resolutionEnv "" "01310100" geoSaoPaulo weather25) samplePost).w.response =
      { status := 500, contentType := jsonContentType,
        body := "\x7b\"message\":\"error fetching temperature\"\x7d\n" } ∧
    (∀ c, ∃ err,
      fetchTemperature (resolutionEnv "" "01310100" geoSaoPaulo weather25) c = (.error err, [])) ∧
    ∀ r2, (handleWeather (resolutionEnv "" "01310100" geoSaoPaulo weather25)
      r2).w.response.status ≠ 200 :=
  have hcause :
      temperatureFailureCause (resolutionEnv "" "01310100" geoSaoPaulo weather25) "São Paulo" :=
    Or.inl rfl
  ⟨hcause,
   (handleWeather_temperature_failure (resolutionEnv "" "01310100" geoSaoPaulo weather25)
      samplePost { ZipCode := "01310100" } "São Paulo").1
      (by decide) (by decide) (by decide) (by decide) hcause,
   (handleWeather_temperature_failure (resolutionEnv "" "01310100" geoSaoPaulo weather25)
      samplePost { ZipCode := "01310100" } "São Paulo").2 rfl⟩

/-! ## The edge stage -/

theorem handleZipCode_relayedWriter (env : Env) (r : Request) (request : ZipCodeRequest)
    (s : Nat) (b : String)
    (hm : r.Method = "POST")
    (hd : env.json.decodeZipCodeRequest r.Body = .ok request)
    (hv : validZipCode request.ZipCode = true)
    (hf : (forwardToServiceB env request.ZipCode).1 =
      .ok { StatusCode := s, Body := .readable b }) :
    (handleZipCode env r).w = relayedWriter s b := by
  rcases hfw : forwardToServiceB env request.ZipCode with ⟨res, calls⟩
  rw [hfw] at hf
  simp only at hf
  subst hf
  simp [handleZipCode, hm, hd, hv, hfw, relayedWriter]

/-- The response writer relays status `s`, body `b` and the JSON content type
exactly for the final statuses it accepts (101 and 200..999) other than 304,
with an empty body where the status allows none (101, 204). -/
theorem relayedWriter_response_iff (s : Nat) (b : String) :
    (relayedWriter s b).response =
        { status := s, contentType := jsonContentType, body := b } ↔
      (s = 101 ∨ 200 ≤ s) ∧ s ≤ 999 ∧ s ≠ 304 ∧ (b = "" ∨ (s ≠ 101 ∧ s ≠ 204)) := by
  by_cases h1 : s < 100 ∨ s > 999
  · have hr : (relayedWriter s b).response.aborted = true := by
      simp [relayedWriter, ResponseWriter.fresh, ResponseWriter.setContentType,
        ResponseWriter.WriteHeader, ResponseWriter.Write, ResponseWriter.response, h1]
    constructor
    · intro h
      rw [h] at hr
      cases hr
    · intro h
      omega
  · by_cases h2 : 100 ≤ s ∧ s ≤ 199 ∧ s ≠ 101
    · have hr : (relayedWriter s b).response.informational = [s] := by
        simp [relayedWriter, ResponseWriter.fresh, ResponseWriter.setContentType,
          ResponseWriter.WriteHeader, ResponseWriter.Write, ResponseWriter.response, h1, h2,
          bodyAllowedForStatus]
      constructor
      · intro h
        rw [h] at hr
        cases hr
      · intro h
        omega
    · by_cases h3 : s = 304
      · subst h3
        have hr : (relayedWriter 304 b).response.contentType = none := by
          simp [relayedWriter, ResponseWriter.fresh, ResponseWriter.setContentType,
            ResponseWriter.WriteHeader, ResponseWriter.Write, ResponseWriter.response,
            bodyAllowedForStatus]
        constructor
        · intro h
          rw [h] at hr
          cases hr
        · intro h
          omega
      · by_cases h4 : s = 101 ∨ s = 204
        · have hr : (relayedWriter s b).response =
              { status := s, contentType := jsonContentType, body := "" } := by
            rcases h4 with h4 | h4 <;> subst h4 <;>
            simp [relayedWriter, ResponseWriter.fresh, ResponseWriter.setContentType,
              ResponseWriter.WriteHeader, ResponseWriter.Write, ResponseWriter.response,
              bodyAllowedForStatus, jsonContentType]
          rw [hr]
          constructor
          · intro h
            have hb : b = "" := by
              have := congrArg ClientResponse.body h
              exact this.symm
            refine ⟨by omega, by omega, h3, Or.inl hb⟩
          · rintro ⟨_, _, _, hb | hb⟩
            · rw [hb]
            · omega
        · have a3 : ¬ (100 ≤ s ∧ s ≤ 199) := by omega
          have a4 : s ≠ 204 := by omega
          have hr : (relayedWriter s b).response =
              { status := s, contentType := jsonContentType, body := b } := by
            simp [relayedWriter, ResponseWriter.fresh, ResponseWriter.setContentType,
              ResponseWriter.WriteHeader, ResponseWriter.Write, ResponseWriter.response,
              bodyAllowedForStatus, jsonContentType, h1, h2, h3, a3, a4]
          rw [hr]
          simp only [true_iff]
          refine ⟨by omega, by omega, h3, Or.inr ⟨by omega, by omega⟩⟩

/-- C6 (as stated): the claim fails for statuses the response writer does not
relay as they are. When the resolution stage answers 304 (which has no body),
the forward succeeds and the edge answers 304 without the JSON content type;
when it answers with the status code 099, `WriteHeader` panics and the client
receives no response at all. -/
theorem handleZipCode_relay_not_modified :
    (forwardToServiceB (edgeEnv downstreamNotModified) "01310100").1 =
      .ok { StatusCode := 304, Body := .readable "" } ∧
    (handleZipCode (edgeEnv downstreamNotModified) samplePost).w.response =
      { status := 304, contentType := none, body := "" } ∧
    (handleZipCode (edgeEnv downstreamNotModified) samplePost).w.response ≠
      { status := 304, contentType := jsonContentType, body := "" } ∧
    (forwardToServiceB (edgeEnv downstreamBadStatus) "01310100").1 =
      .ok { StatusCode := 99, Body := .readable "\x7b\x7d" } ∧
    (handleZipCode (edgeEnv downstreamBadStatus) samplePost).w.response.aborted = true ∧
    (handleZipCode (edgeEnv downstreamBadStatus) samplePost).w.response ≠
      { status := 99, contentType := jsonContentType, body := "\x7b\x7d" } := by
  decide

/-- C6 (amended): for a POST request whose code passes validation, when the
forward returns a response with status `s` and readable body `b`, where `s`
is a final status the response writer accepts (101 or 200..999) other than
304, and `b` is empty when `s` allows no body (101, 204), `handleZipCode`
answers status `s`, content type JSON and body exactly `b`, with no interim
response. -/
theorem handleZipCode_relay (env : Env) (r : Request) (request : ZipCodeRequest)
    (s : Nat) (b : String)
    (hm : r.Method = "POST")
    (hd : env.json.decodeZipCodeRequest r.Body = .ok request)
    (hv : validZipCode request.ZipCode = true)
    (hf : (forwardToServiceB env request.ZipCode).1 =
      .ok { StatusCode := s, Body := .readable b })
    (hs1 : s = 101 ∨ 200 ≤ s) (hs2 : s ≤ 999) (hs3 : s ≠ 304)
    (hb : b = "" ∨ (s ≠ 101 ∧ s ≠ 204)) :
    (handleZipCode env r).w.response =
      { status := s, contentType := jsonContentType, body := b } := by
  rw [handleZipCode_relayedWriter env r request s b hm hd hv hf]
  exact (relayedWriter_response_iff s b).2 ⟨hs1, hs2, hs3, hb⟩

/-- C6 (amended), at a resolution stage that answers 404 with its error
envelope. -/
theorem handleZipCode_relay_witness :
    (forwardToServiceB (edgeEnv downstreamNotFound) "01310100").1 =
      downstreamNotFound ∧
    (handleZipCode (edgeEnv downstreamNotFound) samplePost).w.response =
      { status := 404, contentType := jsonContentType,
        body := "\x7b\"message\":\"can not find zipcode\"\x7d\n" } :=
  ⟨by decide,
   handleZipCode_relay (edgeEnv downstreamNotFound) samplePost { ZipCode := "01310100" } 404
     "\x7b\"message\":\"can not find zipcode\"\x7d\n"
     (by decide) (by decide) (by decide) (by decide)
     (by decide) (by decide) (by decide) (by decide)⟩

/-- When reading the body of the forwarded response fails, the client
receives the envelope `error processing response` under the status `s` of
the resolution stage (a final status that allows a body): the status line
was sent before the body was read, and the `WriteHeader(500)` of
`sendErrorResponse` comes too late. -/
theorem handleZipCode_read_failure (env : Env) (r : Request) (request : ZipCodeRequest)
    (s : Nat) (err : String)
    (hm : r.Method = "POST")
    (hd : env.json.decodeZipCodeRequest r.Body = .ok request)
    (hv : validZipCode request.ZipCode = true)
    (hf : (forwardToServiceB env request.ZipCode).1 =
      .ok { StatusCode := s, Body := .failing err })
    (hs1 : 200 ≤ s) (hs2 : s ≤ 999) (hs3 : s ≠ 204) (hs4 : s ≠ 304) :
    (handleZipCode env r).w.response =
      { status := s, contentType := jsonContentType,
        body := env.json.encodeErrorResponse { Message := "error processing response" } } := by
  rcases hfw : forwardToServiceB env request.ZipCode with ⟨res, calls⟩
  rw [hfw] at hf
  simp only at hf
  subst hf
  have a1 : ¬ (s < 100 ∨ s > 999) := by omega
  have a2 : ¬ (100 ≤ s ∧ s ≤ 199 ∧ s ≠ 101) := by omega
  have a3 : ¬ (100 ≤ s ∧ s ≤ 199) := by omega
  simp [handleZipCode, hm, hd, hv, hfw, sendErrorResponse, ResponseWriter.fresh,
    ResponseWriter.setContentType, ResponseWriter.WriteHeader, ResponseWriter.Write,
    ResponseWriter.response, jsonContentType, bodyAllowedForStatus, a1, a2, a3, hs3, hs4]

/-- C7: when the resolution stage answers status 200 and reading its body
fails, the client of `handleZipCode` receives the error envelope
`error processing response` under status 200, the status already relayed,
and not under status 500. -/
theorem handleZipCode_read_failure_status :
    (handleZipCode (edgeEnv downstreamBrokenBody)
      samplePost).w.response =
      { status := 200, contentType := jsonContentType,
        body := "\x7b\"message\":\"error processing response\"\x7d\n" } ∧
    (handleZipCode (edgeEnv downstreamBrokenBody)
      samplePost).w.response.status ≠ 500 := by
  decide

/-- C8: for a POST request whose code passes validation, when the forward
fails (the request cannot be built, or the transport fails or times out),
`handleZipCode` answers status 500, content type JSON, with the error
envelope `error communicating with weather service` and nothing else. -/
theorem handleZipCode_forward_failure (env : Env) (r : Request) (request : ZipCodeRequest)
    (hm : r.Method = "POST")
    (hd : env.json.decodeZipCodeRequest r.Body = .ok request)
    (hv : validZipCode request.ZipCode = true)
    (hcause : forwardFailureCause env request.ZipCode) :
    (handleZipCode env r).w.response =
      { status := 500, contentType := jsonContentType,
        body := env.json.encodeErrorResponse
          { Message := "error communicating with weather service" } } := by
  obtain ⟨err, herr⟩ := (forwardToServiceB_fails_iff env request.ZipCode).2 hcause
  rcases hfw : forwardToServiceB env request.ZipCode with ⟨res, calls⟩
  rw [hfw] at herr
  simp only at herr
  subst herr
  have hout : handleZipCode env r =
      { w := sendErrorResponse env.json ResponseWriter.fresh
          "error communicating with weather service" 500,
        calls := calls } := by
    simp [handleZipCode, hm, hd, hv, hfw]
  rw [hout]
  exact sendErrorResponse_500 _ _

/-- C8, at a resolution stage that does not answer within the bound. -/
theorem handleZipCode_forward_failure_witness :
    forwardFailureCause (edgeEnv (.error "context deadline exceeded")) "01310100" ∧
    (handleZipCode (edgeEnv (.error "context deadline exceeded")) samplePost).w.response =
      { status := 500, contentType := jsonContentType,
        body := "\x7b\"message\":\"error communicating with weather service\"\x7d\n" } :=
  have hcause : forwardFailureCause (edgeEnv (.error "context deadline exceeded")) "01310100" :=
    Or.inr ⟨"context deadline exceeded", rfl⟩
  ⟨hcause,
   handleZipCode_forward_failure _ samplePost { ZipCode := "01310100" }
     (by decide) (by decide) (by decide) hcause⟩

/-! ## Both stages -/

/-- C5: for a POST request whose body does not decode or whose code fails the
8-digit check, both stages answer status 422 with the error envelope
`invalid zipcode` and make no outbound request. -/
theorem invalid_zipcode_rejected (env : Env) (r : Request)
    (hm : r.Method = "POST")
    (hbad : ∀ request, env.json.decodeZipCodeRequest r.Body = .ok request →
      validZipCode request.ZipCode = false) :
    (handleZipCode env r).w.response =
      { status := 422, contentType := jsonContentType,
        body := env.json.encodeErrorResponse { Message := "invalid zipcode" } } ∧
    (handleZipCode env r).calls = [] ∧
    (handleWeather env r).w.response =
      { status := 422, contentType := jsonContentType,
        body := env.json.encodeErrorResponse { Message := "invalid zipcode" } } ∧
    (handleWeather env r).calls = [] := by
  cases hd : env.json.decodeZipCodeRequest r.Body with
  | error e => simp [handleZipCode, handleWeather, hm, hd, sendErrorResponse_422]
  | ok request =>
    have hv := hbad request hd
    simp [handleZipCode, handleWeather, hm, hd, hv, sendErrorResponse_422]

/-- C5, at the code 123. -/
theorem invalid_zipcode_rejected_witness :
    validZipCode "123" = false ∧
    (handleZipCode (edgeEnv geoSaoPaulo)
      shortPost).w.response =
      { status := 422, contentType := jsonContentType,
        body := "\x7b\"message\":\"invalid zipcode\"\x7d\n" } ∧
    (handleZipCode (edgeEnv geoSaoPaulo)
      shortPost).calls = [] ∧
    (handleWeather (edgeEnv geoSaoPaulo)
      shortPost).w.response =
      { status := 422, contentType := jsonContentType,
        body := "\x7b\"message\":\"invalid zipcode\"\x7d\n" } ∧
    (handleWeather (edgeEnv geoSaoPaulo)
      shortPost).calls = [] :=
  ⟨by decide,
   invalid_zipcode_rejected (edgeEnv geoSaoPaulo)
     shortPost (by decide)
     (by
       intro request h
       have h2 : request = { ZipCode := "123" } := by
         have h3 : (edgeEnv geoSaoPaulo).json.decodeZipCodeRequest shortPost.Body =
             .ok { ZipCode := "123" } := by decide
         rw [h3] at h
         cases h
         rfl
       rw [h2]
       decide)⟩

/-- C9: for a request whose method is not POST, whatever its body, both
stages answer status 405 with an empty body and no content type, and make no
outbound request. -/
theorem method_not_allowed (env : Env) (r : Request) (hm : r.Method ≠ "POST") :
    handleZipCode env r = { w := ResponseWriter.fresh.WriteHeader 405, calls := [] } ∧
    handleWeather env r = { w := ResponseWriter.fresh.WriteHeader 405, calls := [] } ∧
    (handleZipCode env r).w.response = { status := 405, contentType := none, body := "" } ∧
    (handleWeather env r).w.response = { status := 405, contentType := none, body := "" } ∧
    (handleZipCode env r).calls = [] ∧
    (handleWeather env r).calls = [] := by
  have h1 : handleZipCode env r = { w := ResponseWriter.fresh.WriteHeader 405, calls := [] } := by
    simp [handleZipCode, hm]
  have h2 : handleWeather env r = { w := ResponseWriter.fresh.WriteHeader 405, calls := [] } := by
    simp [handleWeather, hm]
  refine ⟨h1, h2, ?_, ?_, ?_, ?_⟩
  · rw [h1]; exact writeHeader_405_response
  · rw [h2]; exact writeHeader_405_response
  · rw [h1]
  · rw [h2]

/-- C9, at a GET request carrying a valid postal-code document. -/
theorem method_not_allowed_witness :
    ("GET" : String) ≠ "POST" ∧
    (handleZipCode (edgeEnv geoSaoPaulo)
      sampleGet).w.response =
      { status := 405, contentType := none, body := "" } ∧
    (handleWeather (resolutionEnv "secret" "01310100" geoSaoPaulo weather25)
      sampleGet).w.response =
      { status := 405, contentType := none, body := "" } :=
  ⟨by decide,
   (method_not_allowed (edgeEnv geoSaoPaulo)
      sampleGet (by decide)).2.2.1,
   (method_not_allowed (resolutionEnv "secret" "01310100" geoSaoPaulo weather25)
      sampleGet (by decide)).2.2.2.1⟩

/-! ## The weather-lookup URL -/

theorem cut_of_not_mem (sep : Char) (a : List Char) (h : sep ∉ a) :
    cut sep a = (a, none) := by
  induction a with
  | nil => rfl
  | cons c t ih =>
    have hc : c ≠ sep := fun e => h (by simp [e])
    have ht : sep ∉ t := fun e => h (by simp [e])
    simp [cut, hc, ih ht]

theorem cut_append (sep : Char) (a b : List Char) (h : sep ∉ a) :
    cut sep (a ++ sep :: b) = (a, some b) := by
  induction a with
  | nil => simp [cut]
  | cons c t ih =>
    have hc : c ≠ sep := fun e => h (by simp [e])
    have ht : sep ∉ t := fun e => h (by simp [e])
    simp [cut, hc, ih ht]

theorem splitAll_of_not_mem (sep : Char) (a : List Char) (h : sep ∉ a) :
    splitAll sep a = [a] := by
  induction a with
  | nil => rfl
  | cons c t ih =>
    have hc : c ≠ sep := fun e => h (by simp [e])
    have ht : sep ∉ t := fun e => h (by simp [e])
    simp [splitAll, hc, ih ht]

theorem splitAll_append (sep : Char) (a b : List Char) (h : sep ∉ a) :
    splitAll sep (a ++ sep :: b) = a :: splitAll sep b := by
  induction a with
  | nil => simp [splitAll]
  | cons c t ih =>
    have hc : c ≠ sep := fun e => h (by simp [e])
    have ht : sep ∉ t := fun e => h (by simp [e])
    simp [splitAll, hc, ih ht]

theorem weatherURL_data (apiKey city : String) :
    (weatherURL apiKey city).data =
      "https://api.weatherapi.com/v1/current.json".data ++
        '?' :: ("key".data ++ '=' :: (apiKey.data ++
          '&' :: ("q".data ++ '=' :: (city.data ++ '&' :: ("aqi".data ++ '=' :: "no".data))))) := by
  simp [weatherURL, String.data_append]

theorem rawQuery_weatherURL (apiKey city : String)
    (hk : '#' ∉ apiKey.data) (hc : '#' ∉ city.data) :
    rawQuery (weatherURL apiKey city) =
      "key".data ++ '=' :: (apiKey.data ++
        '&' :: ("q".data ++ '=' :: (city.data ++ '&' :: ("aqi".data ++ '=' :: "no".data)))) := by
  have hfrag : '#' ∉ (weatherURL apiKey city).data := by
    rw [weatherURL_data]
    simp [hk, hc]
  unfold rawQuery
  rw [cut_of_not_mem _ _ hfrag, weatherURL_data]
  simp only []
  rw [cut_append '?' _ _ (by simp)]

/-- C10 (as stated): the claim fails for a city that contains `&`. For the
credential `secret` and the city `Rio&aqi=yes`, the query string of the URL
that `fetchTemperature` requests has four parameters, `q` is `Rio`, and `aqi`
is given twice. -/
theorem weatherURL_query_injection :
    (fetchTemperature (resolutionEnv "secret" "01310100" geoSaoPaulo weather25)
        "Rio&aqi=yes").2.map (fun req => queryParams (rawQuery req.URL)) =
      [[("key", "secret"), ("q", "Rio"), ("aqi", "yes"), ("aqi", "no")]] ∧
    queryParams (rawQuery (weatherURL "secret" "Rio&aqi=yes")) ≠
      [("key", "secret"), ("q", "Rio&aqi=yes"), ("aqi", "no")] := by
  decide

/-- C10 (amended): for a non-empty credential `k` and a city `c`, neither of
which contains `&` or `#`, every request `fetchTemperature` makes goes to
`weatherURL k c`, and the query string of that URL, split into parameters on
`&` and into name and value on the first `=`, consists of exactly
`key = k`, `q = c` and `aqi = no`, in that order. -/
theorem weatherURL_query (env : Env) (k c : String)
    (hkey : env.getenv "WEATHER_API_KEY" = k) (hne : k ≠ "")
    (hk1 : '&' ∉ k.data) (hk2 : '#' ∉ k.data)
    (hc1 : '&' ∉ c.data) (hc2 : '#' ∉ c.data) :
    (∀ req ∈ (fetchTemperature env c).2, req.URL = weatherURL k c) ∧
    queryParams (rawQuery (weatherURL k c)) = [("key", k), ("q", c), ("aqi", "no")] := by
  constructor
  · intro req hreq
    simp only [fetchTemperature, hkey, hne, if_false] at hreq
    revert hreq
    repeat' split
    all_goals simp [getRequest]
    all_goals intro h; rw [h]
  · rw [rawQuery_weatherURL k c hk2 hc2]
    unfold queryParams
    have e1 : '&' ∉ "key".data ++ '=' :: k.data := by simp [hk1]
    have e2 : '&' ∉ "q".data ++ '=' :: c.data := by simp [hc1]
    have e3 : '&' ∉ "aqi".data ++ '=' :: "no".data := by simp
    have s1 : "key".data ++ '=' :: (k.data ++
        '&' :: ("q".data ++ '=' :: (c.data ++ '&' :: ("aqi".data ++ '=' :: "no".data)))) =
        ("key".data ++ '=' :: k.data) ++
          '&' :: (("q".data ++ '=' :: c.data) ++ '&' :: ("aqi".data ++ '=' :: "no".data)) := by
      simp
    rw [s1, splitAll_append _ _ _ e1, splitAll_append _ _ _ e2, splitAll_of_not_mem _ _ e3]
    simp only [List.map_cons, List.map_nil]
    rw [cut_append '=' _ _ (by simp), cut_append '=' _ _ (by simp),
      cut_append '=' _ _ (by simp)]

/-- C10 (amended), at the credential `secret` and the city São Paulo. -/
theorem weatherURL_query_witness :
    (∀ req ∈ (fetchTemperature (resolutionEnv "secret" "01310100" geoSaoPaulo weather25)
        "São Paulo").2, req.URL = weatherURL "secret" "São Paulo") ∧
    queryParams (rawQuery (weatherURL "secret" "São Paulo")) =
      [("key", "secret"), ("q", "São Paulo"), ("aqi", "no")] :=
  weatherURL_query (resolutionEnv "secret" "01310100" geoSaoPaulo weather25)
    "secret" "São Paulo" (by decide) (by decide) (by decide) (by decide) (by decide) (by decide)

end CepClima
